import Mathlib

/-!
Verification of the retrieval-augmented job-description extraction pipeline
(`LLMResumer` in `llm_job_parser.py`) and the resume facade
(`ResumeFacade` in `resume_facade.py`).

The Python code is shallowly embedded: external collaborators (browser
driver, file system, embedding index, model calls) are oracles supplied in
an environment record, each returning `Except` to model the exception or
success of the corresponding Python call.  Mutable instance and filesystem
state is threaded explicitly.
-/

namespace AIHawk

/-- Errors raised by model invocations (rate limit, network, malformed
response); distinct from `ValueError` raised by the code itself. -/
inductive LLMErr where
  | rateLimit
  | network (msg : String)
  | malformed (msg : String)
deriving DecidableEq

/-- Exceptions observable from the embedded code.  `valueError` models a
Python `ValueError` raised by the repository code itself; the other
constructors model exceptions propagating out of collaborators. -/
inductive Err where
  | valueError (msg : String)
  | model (e : LLMErr)
  | fetch (msg : String)
  | config (msg : String)
deriving DecidableEq

/-- A langchain document, as used by `format_docs`: only its
`page_content` is consumed. -/
structure Document where
  page_content : String
deriving DecidableEq

/-- `format_docs` from `get_job_description_from_url` (line 87):
`"\n\n".join(doc.page_content for doc in docs)`. -/
def format_docs (docs : List Document) : String :=
  String.intercalate "\n\n" (docs.map (fun d => d.page_content))

/-- Folding string concatenation from an arbitrary accumulator. -/
theorem foldl_append_acc :
    ∀ (l : List String) (acc : String),
      List.foldl (fun r t => r ++ t) acc l
        = acc ++ List.foldl (fun r t => r ++ t) "" l := by
  intro l
  induction l with
  | nil => intro acc; simp
  | cons a as ih =>
      intro acc
      simp only [List.foldl_cons]
      rw [ih (acc ++ a), ih ("" ++ a)]
      simp [String.append_assoc]

/-- Unfolding of the accumulator loop of `String.intercalate`. -/
theorem intercalate_go_eq (s : String) :
    ∀ (l : List String) (acc : String),
      String.intercalate.go acc s l
        = acc ++ String.join (l.map (fun a => s ++ a)) := by
  intro l
  induction l with
  | nil =>
      intro acc
      simp [String.intercalate.go, String.join]
  | cons a as ih =>
      intro acc
      simp only [String.intercalate.go, List.map_cons, String.join, List.foldl_cons]
      rw [ih (acc ++ s ++ a), foldl_append_acc _ ("" ++ (s ++ a))]
      simp [String.join, String.append_assoc]

/-- Cons law for `String.intercalate` with a nonempty tail. -/
theorem intercalate_cons_cons (s a b : String) (l : List String) :
    String.intercalate s (a :: b :: l)
      = a ++ s ++ String.intercalate s (b :: l) := by
  simp only [String.intercalate]
  rw [intercalate_go_eq, intercalate_go_eq]
  simp only [String.join, List.map_cons, List.foldl_cons]
  rw [foldl_append_acc _ ("" ++ (s ++ b))]
  simp [String.append_assoc]

/-- Chunk size passed to `TokenTextSplitter` at line 73. -/
def chunk_size : Nat := 500

/-- Chunk overlap passed to `TokenTextSplitter` at line 73. -/
def chunk_overlap : Nat := 50

/-- Modelled from the spec: the token splitter used by
`TokenTextSplitter(chunk_size=500, chunk_overlap=50)` (the splitter
implementation lives in the langchain library, not in this repository).
It walks the token-id list with stride `chunk_size - chunk_overlap`,
emitting windows of at most `chunk_size` tokens, and stops when a window
reaches the end of the input.  The fuel argument is bounded by the input
length and is never exhausted, because each step consumes a positive
number of tokens. -/
def split_aux : Nat → List Nat → List (List Nat)
  | 0, ids => [ids]
  | fuel + 1, ids =>
    if ids.length ≤ chunk_size then [ids]
    else ids.take chunk_size :: split_aux fuel (ids.drop (chunk_size - chunk_overlap))

/-- Modelled from the spec: splitting an encoded text into overlapping
token chunks; an empty token list produces no chunks. -/
def split_text_on_tokens (ids : List Nat) : List (List Nat) :=
  if ids.isEmpty then [] else split_aux ids.length ids

/-- The head chunk of `split_aux` always starts with the first
`chunk_overlap` tokens of the input. -/
theorem split_aux_head (fuel : Nat) (ids : List Nat) :
    ∃ c tl, split_aux fuel ids = c :: tl
      ∧ c.take chunk_overlap = ids.take chunk_overlap := by
  cases fuel with
  | zero => exact ⟨ids, [], rfl, rfl⟩
  | succ f =>
      by_cases h : ids.length ≤ chunk_size
      · exact ⟨ids, [], by simp [split_aux, h], rfl⟩
      · refine ⟨ids.take chunk_size,
          split_aux f (ids.drop (chunk_size - chunk_overlap)),
          by simp [split_aux, h], ?_⟩
        rw [List.take_take]
        norm_num [chunk_size, chunk_overlap]

/-- Consecutive chunks produced by `split_aux` overlap by exactly
`chunk_overlap` tokens: the stride suffix of a chunk equals the prefix of
the next chunk and has length `chunk_overlap`. -/
theorem split_aux_consecutive :
    ∀ (fuel : Nat) (ids : List Nat) (i : Nat) (c1 c2 : List Nat),
      (split_aux fuel ids)[i]? = some c1 →
      (split_aux fuel ids)[i + 1]? = some c2 →
      c1.drop (chunk_size - chunk_overlap) = c2.take chunk_overlap
      ∧ (c1.drop (chunk_size - chunk_overlap)).length = chunk_overlap := by
  intro fuel
  induction fuel with
  | zero =>
      intro ids i c1 c2 h1 h2
      simp [split_aux] at h2
  | succ f ih =>
      intro ids i c1 c2 h1 h2
      by_cases hle : ids.length ≤ chunk_size
      · simp [split_aux, hle] at h2
      · simp only [split_aux, if_neg hle] at h1 h2
        cases i with
        | zero =>
            simp only [List.getElem?_cons_zero, Option.some.injEq] at h1
            simp only [List.getElem?_cons_succ] at h2
            obtain ⟨c, tl, heq, hc⟩ :=
              split_aux_head f (ids.drop (chunk_size - chunk_overlap))
            rw [heq] at h2
            simp only [List.getElem?_cons_zero, Option.some.injEq] at h2
            subst h1
            subst h2
            constructor
            · rw [List.drop_take, hc]
              norm_num [chunk_size, chunk_overlap]
            · rw [List.drop_take]
              simp only [List.length_take, List.length_drop]
              simp only [chunk_size, chunk_overlap] at hle ⊢
              omega
        | succ j =>
            simp only [List.getElem?_cons_succ] at h1 h2
            exact ih _ j c1 c2 h1 h2

/-- Session state of an `LLMResumer` instance: `job_description` is `some`
exactly when the Python attribute `self.job_description` has been set
(`hasattr` succeeds). -/
structure SessionState where
  job_description : Option String
deriving DecidableEq

/-- Message of the `ValueError` raised at line 148 of
`llm_job_parser.py`. -/
def jobNotFoundMsg : String :=
  "Job description not found. Please run get_job_description_from_url first."

/-- The extraction prompt of `_extract_information` (lines 150-161) with
its two placeholders substituted, as `PromptTemplate` formatting does. -/
def extract_prompt (job_description question : String) : String :=
  "\n            You are an expert in extracting specific information from job descriptions. \n            Carefully read the job description below and provide a clear and concise answer to the question.\n\n            Job Description: "
    ++ job_description
    ++ "\n\n            Question: "
    ++ question
    ++ "\n            Answer:\n            "

/-- `LLMResumer._extract_information` (lines 139-168): raises `ValueError`
when `self.job_description` is unset, otherwise invokes the model on the
filled extraction prompt and strips the answer. -/
def extract_information (st : SessionState)
    (llm : String → Except LLMErr String) (question : String) :
    Except Err String :=
  match st.job_description with
  | none => .error (.valueError jobNotFoundMsg)
  | some jd =>
    match llm (extract_prompt jd question) with
    | .error e => .error (.model e)
    | .ok result => .ok result.trim

/-- `LLMResumer.extract_company_name` (line 113). -/
def extract_company_name (st : SessionState)
    (llm : String → Except LLMErr String) : Except Err String :=
  extract_information st llm "What is the company name in this job description?"

/-- `LLMResumer.extract_role` (line 121). -/
def extract_role (st : SessionState)
    (llm : String → Except LLMErr String) : Except Err String :=
  extract_information st llm "What is the role or title being sought in this job description?"

/-- `LLMResumer.extract_location` (line 129). -/
def extract_location (st : SessionState)
    (llm : String → Except LLMErr String) : Except Err String :=
  extract_information st llm "What is the location mentioned in this job description?"

/-- `LLMResumer.extract_recruiter_email` (line 137). -/
def extract_recruiter_email (st : SessionState)
    (llm : String → Except LLMErr String) : Except Err String :=
  extract_information st llm "What is the recruiter\x27s email address in this job description?"

/-- `LLMResumer.extract_all_details` (lines 170-181): builds the `details`
dict by the four extraction calls in insertion order; a raised exception in
any call propagates. -/
def extract_all_details (st : SessionState)
    (llm : String → Except LLMErr String) :
    Except Err (List (String × String)) :=
  match extract_company_name st llm with
  | .error e => .error e
  | .ok company =>
    match extract_role st llm with
    | .error e => .error e
    | .ok role =>
      match extract_location st llm with
      | .error e => .error e
      | .ok location =>
        match extract_recruiter_email st llm with
        | .error e => .error e
        | .ok email =>
          .ok [("company_name", company), ("role", role),
               ("location", location), ("recruiter_email", email)]

/-- Whether a result is a raised `ValueError` (the precondition failure of
`_extract_information` is the only `ValueError` the extraction path can
raise). -/
def isValueError {α : Type} : Except Err α → Bool
  | .error (.valueError _) => true
  | _ => false

/-- The Stage 1 prompt of `get_job_description_from_url` (lines 76-86)
with `question` and `context` substituted, as `PromptTemplate` formatting
does. -/
def stage1_prompt (question context : String) : String :=
  "\n            You are an expert job description analyst. Your role is to meticulously analyze and interpret job descriptions. \n            After analyzing the job description, answer the following question in a clear, and informative manner.\n            \n            Question: "
    ++ question
    ++ "\n            Job Description: "
    ++ context
    ++ "\n            Answer:\n            "

/-- The caller-supplied summarization template
(`self.strings.summarize_prompt_template`, line 92).  It is configuration
data outside this repository; per the spec it has a single recognized
placeholder, to which Stage 1 output is bound by
`(lambda output: \x7b"text": output\x7d)` (line 101), so it is modelled as
the text around that single hole. -/
structure SummarizeTemplate where
  pre : String
  post : String
deriving DecidableEq

/-- Filling the single placeholder of the summarization template, as
`ChatPromptTemplate.from_template(...)` formatting does. -/
def fill_summarize_template (t : SummarizeTemplate) (text : String) : String :=
  t.pre ++ text ++ t.post

/-- Oracles for the external collaborators used by
`get_job_description_from_url`, each `Except`-valued to model the
success or exception of the corresponding call site:
`create_driver_selenium()` (line 59), `driver.get` (line 60),
`find_element`/`get_attribute` (lines 62-63), creation of the named
temporary file (line 65), `temp_file.write` (line 66),
`TextLoader(...).load()` (lines 69-70), token encoding of the loaded text
(line 74), `FAISS.from_documents` with the configured embeddings
(line 75), the retriever (line 89), and the two model invocations through
`llm_cheap` with `StrOutputParser` (lines 91 and 94). -/
structure FetchEnv where
  create_driver : Except Err Unit
  page_load : Except Err Unit
  find_body : Except Err String
  temp_create : Except Err Unit
  temp_write : Except Err Unit
  load_file : Except Err String
  tokenize : String → List Nat
  build_index : List (List Nat) → Except Err Unit
  retrieve : String → List Document
  llm1 : String → Except LLMErr String
  llm2 : String → Except LLMErr String

/-- Observable external state threaded through the fetch operation: whether
the named temporary file currently exists on disk, and whether a live
(created, not yet quit) browser session exists. -/
structure World where
  temp_file_exists : Bool
  driver_live : Bool
deriving DecidableEq

/-- The composed runnable `qa_chain` (lines 95-103): the context formatter
feeds retrieved documents through `format_docs`, Stage 1 runs
`prompt | llm_cheap | StrOutputParser()`, the lambda binds Stage 1 output
to the single placeholder of the summarization template, and Stage 2 runs
`prompt_summarize | llm_cheap | StrOutputParser()`. -/
def qa_chain (env : FetchEnv) (t : SummarizeTemplate) (question : String) :
    Except Err String :=
  match env.llm1 (stage1_prompt question (format_docs (env.retrieve question))) with
  | .error e => .error (.model e)
  | .ok output =>
    match env.llm2 (fill_summarize_template t output) with
    | .error e => .error (.model e)
    | .ok result => .ok result

/-- The query string passed to `qa_chain.invoke` at line 104. -/
def fetch_query : String := "Provide, full job description"

/-- `LLMResumer.get_job_description_from_url` (lines 57-105), step by
step.  `driver.quit()` (line 64) runs only after navigation and body
extraction succeed — there is no `try`/`finally` around the driver.  The
temporary file is created with `delete=False` (line 65) before the
`try`/`finally` of lines 68-72, so only the `TextLoader` load is covered
by the guaranteed `os.remove`; a failing `temp_file.write` leaves the file
on disk.  On success, `self.job_description` is assigned the chain result
(line 105). -/
def get_job_description_from_url (env : FetchEnv) (t : SummarizeTemplate)
    (st : SessionState) (w : World) :
    Except Err String × SessionState × World :=
  match env.create_driver with
  | .error e => (.error e, st, w)
  | .ok _ =>
    let w1 : World := { w with driver_live := true }
    match env.page_load with
    | .error e => (.error e, st, w1)
    | .ok _ =>
      match env.find_body with
      | .error e => (.error e, st, w1)
      | .ok _response =>
        let w2 : World := { w1 with driver_live := false }
        match env.temp_create with
        | .error e => (.error e, st, w2)
        | .ok _ =>
          let w3 : World := { w2 with temp_file_exists := true }
          match env.temp_write with
          | .error e => (.error e, st, w3)
          | .ok _ =>
            match env.load_file with
            | .error e => (.error e, st, { w3 with temp_file_exists := false })
            | .ok text =>
              let w4 : World := { w3 with temp_file_exists := false }
              let chunks := split_text_on_tokens (env.tokenize text)
              match env.build_index chunks with
              | .error e => (.error e, st, w4)
              | .ok _ =>
                match qa_chain env t fetch_query with
                | .error e => (.error e, st, w4)
                | .ok result => (.ok result, { st with job_description := some result }, w4)

/-- All steps of the fetch operation preceding the two-stage chain
succeed. -/
def preStepsOk (env : FetchEnv) : Prop :=
  env.create_driver = .ok () ∧ env.page_load = .ok ()
    ∧ (∃ b, env.find_body = .ok b) ∧ env.temp_create = .ok ()
    ∧ env.temp_write = .ok () ∧ (∃ txt, env.load_file = .ok txt)
    ∧ (∀ cs, env.build_index cs = .ok ())

/-- Collaborator calls observable from `ResumeFacade.create_resume_pdf`,
in the order the code performs them. -/
inductive FacadeStep where
  | get_style_path
  | create_resume
  | create_resume_job_description_text
  | html_to_pdf
  | driver_quit
deriving DecidableEq

/-- Oracles for the collaborators of `ResumeFacade.create_resume_pdf`:
`style_manager.get_style_path` (line 91), the two resume generators
(lines 94 and 96), and `HTML_to_PDF` (line 97). -/
structure FacadeEnv where
  get_style_path : String → Except Err String
  create_resume : String → Except Err String
  create_resume_job_description_text : String → String → Except Err String
  html_to_pdf : String → Except Err String

/-- Message of the `ValueError` raised at line 89 of
`resume_facade.py`. -/
def noStyleMsg : String := "Devi scegliere uno stile prima di generare il PDF."

/-- Facade state relevant to `create_resume_pdf`: the selected style and
whether `self.driver.quit()` has been called. -/
structure FacadeState where
  selected_style : Option String
  driver_quit : Bool
deriving DecidableEq

/-- `ResumeFacade.create_resume_pdf` (lines 80-99): raises `ValueError`
when no style is selected, before touching any collaborator; otherwise
resolves the style path, generates the HTML resume (plain or from the job
description text), converts it to PDF, and quits the driver.  Returns the
result, the updated facade state, and the trace of collaborator calls
performed. -/
def create_resume_pdf (env : FacadeEnv) (fst : FacadeState)
    (job_description_text : Option String) :
    Except Err String × FacadeState × List FacadeStep :=
  match fst.selected_style with
  | none => (.error (.valueError noStyleMsg), fst, [])
  | some style =>
    match env.get_style_path style with
    | .error e => (.error e, fst, [.get_style_path])
    | .ok style_path =>
      match job_description_text with
      | none =>
        match env.create_resume style_path with
        | .error e => (.error e, fst, [.get_style_path, .create_resume])
        | .ok html_resume =>
          match env.html_to_pdf html_resume with
          | .error e =>
              (.error e, fst, [.get_style_path, .create_resume, .html_to_pdf])
          | .ok result =>
              (.ok result, { fst with driver_quit := true },
               [.get_style_path, .create_resume, .html_to_pdf, .driver_quit])
      | some txt =>
        match env.create_resume_job_description_text style_path txt with
        | .error e =>
            (.error e, fst, [.get_style_path, .create_resume_job_description_text])
        | .ok html_resume =>
          match env.html_to_pdf html_resume with
          | .error e =>
              (.error e, fst,
               [.get_style_path, .create_resume_job_description_text, .html_to_pdf])
          | .ok result =>
              (.ok result, { fst with driver_quit := true },
               [.get_style_path, .create_resume_job_description_text,
                .html_to_pdf, .driver_quit])

/-- C1: with the cached job-description summary unset, every extraction
operation raises the `ValueError` naming the missing summary; once the
summary is populated, no extraction operation can raise that
`ValueError` (model failures surface as model errors instead). -/
theorem c1_extraction_precondition
    (llm : String → Except LLMErr String) (q jd : String) :
    extract_information ⟨none⟩ llm q = .error (.valueError jobNotFoundMsg)
    ∧ extract_company_name ⟨none⟩ llm = .error (.valueError jobNotFoundMsg)
    ∧ extract_role ⟨none⟩ llm = .error (.valueError jobNotFoundMsg)
    ∧ extract_location ⟨none⟩ llm = .error (.valueError jobNotFoundMsg)
    ∧ extract_recruiter_email ⟨none⟩ llm = .error (.valueError jobNotFoundMsg)
    ∧ extract_all_details ⟨none⟩ llm = .error (.valueError jobNotFoundMsg)
    ∧ isValueError (extract_information ⟨some jd⟩ llm q) = false
    ∧ isValueError (extract_company_name ⟨some jd⟩ llm) = false
    ∧ isValueError (extract_role ⟨some jd⟩ llm) = false
    ∧ isValueError (extract_location ⟨some jd⟩ llm) = false
    ∧ isValueError (extract_recruiter_email ⟨some jd⟩ llm) = false
    ∧ isValueError (extract_all_details ⟨some jd⟩ llm) = false := by
  have key : ∀ question, isValueError (extract_information ⟨some jd⟩ llm question) = false := by
    intro question
    simp only [extract_information]
    cases llm (extract_prompt jd question) <;> rfl
  have keyAll : isValueError (extract_all_details ⟨some jd⟩ llm) = false := by
    simp only [extract_all_details, extract_company_name, extract_role,
      extract_location, extract_recruiter_email, extract_information]
    cases llm (extract_prompt jd "What is the company name in this job description?") with
    | error e => rfl
    | ok a =>
      cases llm (extract_prompt jd "What is the role or title being sought in this job description?") with
      | error e => rfl
      | ok b =>
        cases llm (extract_prompt jd "What is the location mentioned in this job description?") with
        | error e => rfl
        | ok c =>
          cases llm (extract_prompt jd "What is the recruiter\x27s email address in this job description?") with
          | error e => rfl
          | ok d => rfl
  exact ⟨rfl, rfl, rfl, rfl, rfl, rfl, key q, key _, key _, key _, key _, keyAll⟩

/-- C5: with a populated summary and a model answering each of the four
extraction prompts, `extract_all_details` returns exactly the four keys
`company_name`, `role`, `location`, `recruiter_email` in insertion order,
each value the corresponding model answer with surrounding whitespace
stripped. -/
theorem c5_extract_all_details (jd : String)
    (llm : String → Except LLMErr String) (a1 a2 a3 a4 : String)
    (h1 : llm (extract_prompt jd "What is the company name in this job description?") = .ok a1)
    (h2 : llm (extract_prompt jd "What is the role or title being sought in this job description?") = .ok a2)
    (h3 : llm (extract_prompt jd "What is the location mentioned in this job description?") = .ok a3)
    (h4 : llm (extract_prompt jd "What is the recruiter\x27s email address in this job description?") = .ok a4) :
    extract_all_details ⟨some jd⟩ llm
      = .ok [("company_name", a1.trim), ("role", a2.trim),
             ("location", a3.trim), ("recruiter_email", a4.trim)] := by
  simp only [extract_all_details, extract_company_name, extract_role,
    extract_location, extract_recruiter_email, extract_information,
    h1, h2, h3, h4]

/-- Witness for C5 at a concrete stub model. -/
theorem c5_extract_all_details_witness :
    extract_all_details ⟨some "jd"⟩ (fun _ => Except.ok " Acme Corp ")
      = .ok [("company_name", (" Acme Corp ").trim), ("role", (" Acme Corp ").trim),
             ("location", (" Acme Corp ").trim), ("recruiter_email", (" Acme Corp ").trim)] :=
  c5_extract_all_details "jd" (fun _ => Except.ok " Acme Corp ")
    " Acme Corp " " Acme Corp " " Acme Corp " " Acme Corp " rfl rfl rfl rfl

/-- C7: chunking uses chunk size 500 and overlap 50, the overlap is
strictly smaller than the chunk size, and any two consecutive chunks of
the produced chunk set overlap by exactly `chunk_overlap` tokens: the
suffix of the earlier chunk past the stride equals the 50-token prefix of
the later chunk. -/
theorem c7_chunking_overlap :
    chunk_overlap < chunk_size
    ∧ ∀ (ids : List Nat) (i : Nat) (c1 c2 : List Nat),
        (split_text_on_tokens ids)[i]? = some c1 →
        (split_text_on_tokens ids)[i + 1]? = some c2 →
        c1.drop (chunk_size - chunk_overlap) = c2.take chunk_overlap
        ∧ (c1.drop (chunk_size - chunk_overlap)).length = chunk_overlap := by
  constructor
  · norm_num [chunk_size, chunk_overlap]
  · intro ids i c1 c2 h1 h2
    cases he : ids.isEmpty with
    | true => simp [split_text_on_tokens, he] at h2
    | false =>
        simp only [split_text_on_tokens, he, Bool.false_eq_true, if_false] at h1 h2
        exact split_aux_consecutive ids.length ids i c1 c2 h1 h2

set_option maxRecDepth 100000 in
/-- Witness for C7 on a concrete 501-token input split into two chunks. -/
theorem c7_chunking_overlap_witness :
    (split_text_on_tokens (List.replicate 501 0))[0]? = some (List.replicate 500 0)
    ∧ (split_text_on_tokens (List.replicate 501 0))[1]? = some (List.replicate 51 0)
    ∧ (List.replicate 500 0).drop (chunk_size - chunk_overlap)
        = (List.replicate 51 0).take chunk_overlap
    ∧ ((List.replicate 500 0).drop (chunk_size - chunk_overlap)).length = chunk_overlap := by
  have h1 : (split_text_on_tokens (List.replicate 501 0))[0]?
      = some (List.replicate 500 0) := by decide
  have h2 : (split_text_on_tokens (List.replicate 501 0))[1]?
      = some (List.replicate 51 0) := by decide
  have h := c7_chunking_overlap.2 (List.replicate 501 0) 0
    (List.replicate 500 0) (List.replicate 51 0) h1 h2
  exact ⟨h1, h2, h.1, h.2⟩

/-- C8: the context handed to Stage 1 is the blank-line-separated
concatenation of the retrieved chunks in order: `format_docs` maps the
empty list to the empty string, a singleton to its page content, and a
longer list to the head's page content, a blank line, then the formatted
tail — so every returned chunk instance appears exactly once, in
retrieval order, with no de-duplication or reordering. -/
theorem c8_format_docs_concatenation :
    format_docs [] = ""
    ∧ (∀ d : Document, format_docs [d] = d.page_content)
    ∧ (∀ (d d' : Document) (ds : List Document),
        format_docs (d :: d' :: ds)
          = d.page_content ++ "\n\n" ++ format_docs (d' :: ds)) := by
  refine ⟨rfl, fun d => rfl, fun d d' ds => ?_⟩
  simp only [format_docs, List.map_cons]
  exact intercalate_cons_cons "\n\n" d.page_content d'.page_content _

/-- A fully successful collaborator environment, used by witnesses. -/
def envAllOk : FetchEnv where
  create_driver := .ok ()
  page_load := .ok ()
  find_body := .ok "<body>job posting</body>"
  temp_create := .ok ()
  temp_write := .ok ()
  load_file := .ok "job posting text"
  tokenize := fun _ => []
  build_index := fun _ => .ok ()
  retrieve := fun _ => []
  llm1 := fun _ => .ok "stage one answer"
  llm2 := fun _ => .ok "final summary"

/-- A concrete summarization template for witnesses. -/
def tmplAB : SummarizeTemplate := ⟨"Summarize: ", " End."⟩

/-- Environment whose Stage 1 model call fails. -/
def envChainFail : FetchEnv := { envAllOk with llm1 := fun _ => .error .rateLimit }

/-- C2: the cached summary changes only when the whole fetch returns
successfully, and when the two-stage chain fails after all earlier steps
succeeded, the fetch propagates exactly that error and leaves the cached
summary unchanged. -/
theorem c2_summary_cached_only_on_full_success
    (env : FetchEnv) (t : SummarizeTemplate) (st : SessionState) (w : World) (e : Err) :
    ((get_job_description_from_url env t st w).2.1 = st
      ∨ ∃ r, (get_job_description_from_url env t st w).1 = .ok r
           ∧ (get_job_description_from_url env t st w).2.1 = ⟨some r⟩)
    ∧ (preStepsOk env → qa_chain env t fetch_query = .error e →
        (get_job_description_from_url env t st w).1 = .error e
        ∧ (get_job_description_from_url env t st w).2.1 = st) := by
  constructor
  · cases hcd : env.create_driver with
    | error e1 => left; simp [get_job_description_from_url, hcd]
    | ok u1 =>
      cases hpl : env.page_load with
      | error e2 => left; simp [get_job_description_from_url, hcd, hpl]
      | ok u2 =>
        cases hfb : env.find_body with
        | error e3 => left; simp [get_job_description_from_url, hcd, hpl, hfb]
        | ok b =>
          cases htc : env.temp_create with
          | error e4 => left; simp [get_job_description_from_url, hcd, hpl, hfb, htc]
          | ok u3 =>
            cases htw : env.temp_write with
            | error e5 => left; simp [get_job_description_from_url, hcd, hpl, hfb, htc, htw]
            | ok u4 =>
              cases hlf : env.load_file with
              | error e6 =>
                  left; simp [get_job_description_from_url, hcd, hpl, hfb, htc, htw, hlf]
              | ok txt =>
                cases hbi : env.build_index (split_text_on_tokens (env.tokenize txt)) with
                | error e7 =>
                    left
                    simp [get_job_description_from_url, hcd, hpl, hfb, htc, htw, hlf, hbi]
                | ok u5 =>
                  cases hq : qa_chain env t fetch_query with
                  | error e8 =>
                      left
                      simp [get_job_description_from_url, hcd, hpl, hfb, htc, htw, hlf,
                        hbi, hq]
                  | ok r =>
                      right
                      exact ⟨r,
                        by simp [get_job_description_from_url, hcd, hpl, hfb, htc, htw,
                             hlf, hbi, hq],
                        by simp [get_job_description_from_url, hcd, hpl, hfb, htc, htw,
                             hlf, hbi, hq]⟩
  · rintro ⟨hcd, hpl, ⟨b, hfb⟩, htc, htw, ⟨txt, hlf⟩, hbi⟩ hq
    constructor <;>
      simp [get_job_description_from_url, hcd, hpl, hfb, htc, htw, hlf, hbi, hq]

/-- Witness for C2: all pre-chain steps succeed, Stage 1 hits a rate
limit, the error propagates and the cache stays unset. -/
theorem c2_summary_cached_only_on_full_success_witness :
    (get_job_description_from_url envChainFail tmplAB ⟨none⟩ ⟨false, false⟩).1
        = .error (.model .rateLimit)
    ∧ (get_job_description_from_url envChainFail tmplAB ⟨none⟩ ⟨false, false⟩).2.1
        = ⟨none⟩ :=
  (c2_summary_cached_only_on_full_success envChainFail tmplAB ⟨none⟩ ⟨false, false⟩
      (.model .rateLimit)).2
    ⟨rfl, rfl, ⟨"<body>job posting</body>", rfl⟩, rfl, rfl,
     ⟨"job posting text", rfl⟩, fun _ => rfl⟩ rfl

/-- Environment whose `temp_file.write` fails after the temporary file was
created with `delete=False`. -/
def envWriteFail : FetchEnv := { envAllOk with temp_write := .error (.fetch "disk full") }

/-- C3 counterexample: when the temp-file write fails, the temporary file
still exists after the fetch raises — the file is created before the
`try`/`finally`, which only covers the `TextLoader` load. -/
theorem c3_counterexample_write_failure_leaks_file :
    (get_job_description_from_url envWriteFail tmplAB ⟨none⟩ ⟨false, false⟩).2.2.temp_file_exists
      = true := rfl

/-- C3 (amended): whenever the temp-file write step does not raise, the
temporary file does not exist on disk after the fetch returns or raises,
whatever the outcome of page load and of text loading/parsing. -/
theorem c3_temp_file_cleanup (env : FetchEnv) (t : SummarizeTemplate)
    (st : SessionState) (w : World)
    (hw : w.temp_file_exists = false) (hwr : env.temp_write = .ok ()) :
    (get_job_description_from_url env t st w).2.2.temp_file_exists = false := by
  cases hcd : env.create_driver with
  | error e1 => simpa [get_job_description_from_url, hcd] using hw
  | ok u1 =>
    cases hpl : env.page_load with
    | error e2 => simpa [get_job_description_from_url, hcd, hpl] using hw
    | ok u2 =>
      cases hfb : env.find_body with
      | error e3 => simpa [get_job_description_from_url, hcd, hpl, hfb] using hw
      | ok b =>
        cases htc : env.temp_create with
        | error e4 => simpa [get_job_description_from_url, hcd, hpl, hfb, htc] using hw
        | ok u3 =>
          cases hlf : env.load_file with
          | error e6 =>
              simp [get_job_description_from_url, hcd, hpl, hfb, htc, hwr, hlf]
          | ok txt =>
            cases hbi : env.build_index (split_text_on_tokens (env.tokenize txt)) with
            | error e7 =>
                simp [get_job_description_from_url, hcd, hpl, hfb, htc, hwr, hlf, hbi]
            | ok u5 =>
              cases hq : qa_chain env t fetch_query with
              | error e8 =>
                  simp [get_job_description_from_url, hcd, hpl, hfb, htc, hwr, hlf,
                    hbi, hq]
              | ok r =>
                  simp [get_job_description_from_url, hcd, hpl, hfb, htc, hwr, hlf,
                    hbi, hq]

/-- Witness for the amended C3 on a fully successful run. -/
theorem c3_temp_file_cleanup_witness :
    (get_job_description_from_url envAllOk tmplAB ⟨none⟩ ⟨false, false⟩).2.2.temp_file_exists
      = false :=
  c3_temp_file_cleanup envAllOk tmplAB ⟨none⟩ ⟨false, false⟩ rfl rfl

/-- Environment whose page navigation fails. -/
def envPageLoadFail : FetchEnv := { envAllOk with page_load := .error (.fetch "timeout") }

/-- C4 counterexample: when `driver.get` raises, the browser session
created at the start of the fetch is never quit — there is no
`try`/`finally` around the driver. -/
theorem c4_counterexample_driver_left_live :
    (get_job_description_from_url envPageLoadFail tmplAB ⟨none⟩ ⟨false, false⟩).2.2.driver_live
      = true := rfl

/-- C4 (amended): the browser session is torn down before the operation
completes whenever page navigation and body extraction succeed — even if a
later step raises — but when navigation raises, the session created at the
start is left live. -/
theorem c4_driver_teardown (env : FetchEnv) (t : SummarizeTemplate)
    (st : SessionState) (w : World) :
    (env.create_driver = .ok () → env.page_load = .ok () →
      ∀ b, env.find_body = .ok b →
        (get_job_description_from_url env t st w).2.2.driver_live = false)
    ∧ (∀ e, env.create_driver = .ok () → env.page_load = .error e →
        (get_job_description_from_url env t st w).2.2.driver_live = true) := by
  constructor
  · intro hcd hpl b hfb
    cases htc : env.temp_create with
    | error e4 => simp [get_job_description_from_url, hcd, hpl, hfb, htc]
    | ok u3 =>
      cases htw : env.temp_write with
      | error e5 => simp [get_job_description_from_url, hcd, hpl, hfb, htc, htw]
      | ok u4 =>
        cases hlf : env.load_file with
        | error e6 => simp [get_job_description_from_url, hcd, hpl, hfb, htc, htw, hlf]
        | ok txt =>
          cases hbi : env.build_index (split_text_on_tokens (env.tokenize txt)) with
          | error e7 =>
              simp [get_job_description_from_url, hcd, hpl, hfb, htc, htw, hlf, hbi]
          | ok u5 =>
            cases hq : qa_chain env t fetch_query with
            | error e8 =>
                simp [get_job_description_from_url, hcd, hpl, hfb, htc, htw, hlf, hbi, hq]
            | ok r =>
                simp [get_job_description_from_url, hcd, hpl, hfb, htc, htw, hlf, hbi, hq]
  · intro e hcd hpl
    simp [get_job_description_from_url, hcd, hpl]

/-- Witness for the amended C4 on a fully successful run. -/
theorem c4_driver_teardown_witness :
    (get_job_description_from_url envAllOk tmplAB ⟨none⟩ ⟨false, false⟩).2.2.driver_live
      = false :=
  (c4_driver_teardown envAllOk tmplAB ⟨none⟩ ⟨false, false⟩).1 rfl rfl
    "<body>job posting</body>" rfl

/-- C6: the summarization pipeline is exactly the sequential composition
of two prompt evaluations — Stage 1 answers the fixed query
`"Provide, full job description"` over the retrieved context, Stage 2
receives Stage 1 output bound to the single placeholder of the
caller-supplied summarization template — and the cached summary equals
Stage 2 output. -/
theorem c6_two_stage_composition (env : FetchEnv) (t : SummarizeTemplate)
    (st : SessionState) (w : World) (o1 o2 : String)
    (hpre : preStepsOk env)
    (h1 : env.llm1 (stage1_prompt fetch_query (format_docs (env.retrieve fetch_query)))
        = .ok o1)
    (h2 : env.llm2 (fill_summarize_template t o1) = .ok o2) :
    (get_job_description_from_url env t st w).1 = .ok o2
    ∧ (get_job_description_from_url env t st w).2.1.job_description = some o2 := by
  obtain ⟨hcd, hpl, ⟨b, hfb⟩, htc, htw, ⟨txt, hlf⟩, hbi⟩ := hpre
  have hq : qa_chain env t fetch_query = .ok o2 := by
    simp [qa_chain, h1, h2]
  constructor <;>
    simp [get_job_description_from_url, hcd, hpl, hfb, htc, htw, hlf, hbi, hq]

/-- Witness for C6 on concrete stub collaborators. -/
theorem c6_two_stage_composition_witness :
    (get_job_description_from_url envAllOk tmplAB ⟨none⟩ ⟨false, false⟩).1
        = .ok "final summary"
    ∧ (get_job_description_from_url envAllOk tmplAB ⟨none⟩ ⟨false, false⟩).2.1.job_description
        = some "final summary" :=
  c6_two_stage_composition envAllOk tmplAB ⟨none⟩ ⟨false, false⟩
    "stage one answer" "final summary"
    ⟨rfl, rfl, ⟨"<body>job posting</body>", rfl⟩, rfl, rfl,
     ⟨"job posting text", rfl⟩, fun _ => rfl⟩ rfl rfl

/-- C9: re-invoking the fetch on the same session is permitted and a
successful run unconditionally overwrites the cached summary with the new
pipeline output, whatever the prior cached value was. -/
theorem c9_refetch_overwrites (env : FetchEnv) (t : SummarizeTemplate)
    (w : World) (prior : Option String) (r : String)
    (h : (get_job_description_from_url env t ⟨prior⟩ w).1 = .ok r) :
    (get_job_description_from_url env t ⟨prior⟩ w).2.1 = ⟨some r⟩ := by
  cases hcd : env.create_driver with
  | error e1 => simp [get_job_description_from_url, hcd] at h
  | ok u1 =>
    cases hpl : env.page_load with
    | error e2 => simp [get_job_description_from_url, hcd, hpl] at h
    | ok u2 =>
      cases hfb : env.find_body with
      | error e3 => simp [get_job_description_from_url, hcd, hpl, hfb] at h
      | ok b =>
        cases htc : env.temp_create with
        | error e4 => simp [get_job_description_from_url, hcd, hpl, hfb, htc] at h
        | ok u3 =>
          cases htw : env.temp_write with
          | error e5 => simp [get_job_description_from_url, hcd, hpl, hfb, htc, htw] at h
          | ok u4 =>
            cases hlf : env.load_file with
            | error e6 =>
                simp [get_job_description_from_url, hcd, hpl, hfb, htc, htw, hlf] at h
            | ok txt =>
              cases hbi : env.build_index (split_text_on_tokens (env.tokenize txt)) with
              | error e7 =>
                  simp [get_job_description_from_url, hcd, hpl, hfb, htc, htw, hlf,
                    hbi] at h
              | ok u5 =>
                cases hq : qa_chain env t fetch_query with
                | error e8 =>
                    simp [get_job_description_from_url, hcd, hpl, hfb, htc, htw, hlf,
                      hbi, hq] at h
                | ok res =>
                    have hr : res = r := by
                      simpa [get_job_description_from_url, hcd, hpl, hfb, htc, htw,
                        hlf, hbi, hq] using h
                    subst hr
                    simp [get_job_description_from_url, hcd, hpl, hfb, htc, htw, hlf,
                      hbi, hq]

/-- Witness for C9: a prior cached summary is overwritten by the new
result. -/
theorem c9_refetch_overwrites_witness :
    (get_job_description_from_url envAllOk tmplAB ⟨some "old summary"⟩ ⟨false, false⟩).2.1
      = ⟨some "final summary"⟩ :=
  c9_refetch_overwrites envAllOk tmplAB ⟨false, false⟩ (some "old summary")
    "final summary" rfl

/-- C10: with no style selected, `create_resume_pdf` raises the
`ValueError` before any collaborator call, leaving facade and driver state
unchanged; with a style selected, a successful run quits the driver, and
only after the PDF conversion. -/
theorem c10_style_check_and_driver_quit (env : FacadeEnv) (dq : Bool)
    (jdt : Option String) :
    (create_resume_pdf env ⟨none, dq⟩ jdt
        = (.error (.valueError noStyleMsg), ⟨none, dq⟩, []))
    ∧ (∀ (style pdf : String) (fst2 : FacadeState) (tr : List FacadeStep),
        create_resume_pdf env ⟨some style, dq⟩ jdt = (.ok pdf, fst2, tr) →
        fst2.driver_quit = true
        ∧ ∃ step, tr = [.get_style_path, step, .html_to_pdf, .driver_quit]) := by
  constructor
  · rfl
  · intro style pdf fst2 tr h
    cases hsp : env.get_style_path style with
    | error e => simp [create_resume_pdf, hsp] at h
    | ok style_path =>
      cases jdt with
      | none =>
        cases hcr : env.create_resume style_path with
        | error e => simp [create_resume_pdf, hsp, hcr] at h
        | ok html_resume =>
          cases hpdf : env.html_to_pdf html_resume with
          | error e => simp [create_resume_pdf, hsp, hcr, hpdf] at h
          | ok result =>
              simp only [create_resume_pdf, hsp, hcr, hpdf, Prod.mk.injEq] at h
              obtain ⟨-, hst, htr⟩ := h
              subst hst
              subst htr
              exact ⟨rfl, ⟨.create_resume, rfl⟩⟩
      | some txt =>
        cases hcr : env.create_resume_job_description_text style_path txt with
        | error e => simp [create_resume_pdf, hsp, hcr] at h
        | ok html_resume =>
          cases hpdf : env.html_to_pdf html_resume with
          | error e => simp [create_resume_pdf, hsp, hcr, hpdf] at h
          | ok result =>
              simp only [create_resume_pdf, hsp, hcr, hpdf, Prod.mk.injEq] at h
              obtain ⟨-, hst, htr⟩ := h
              subst hst
              subst htr
              exact ⟨rfl, ⟨.create_resume_job_description_text, rfl⟩⟩

/-- Fully successful facade collaborators, used by the C10 witness. -/
def envFacadeOk : FacadeEnv where
  get_style_path := fun s => .ok ("styles/" ++ s)
  create_resume := fun _ => .ok "<html>resume</html>"
  create_resume_job_description_text := fun _ _ => .ok "<html>resume jd</html>"
  html_to_pdf := fun _ => .ok "PDFBYTES"

/-- Witness for C10 at concrete collaborators, both for the missing-style
error path and for a successful run with a selected style. -/
theorem c10_style_check_and_driver_quit_witness :
    (create_resume_pdf envFacadeOk ⟨none, false⟩ none
        = (.error (.valueError noStyleMsg), ⟨none, false⟩, []))
    ∧ ((⟨some "modern", true⟩ : FacadeState).driver_quit = true
       ∧ ∃ step, [FacadeStep.get_style_path, FacadeStep.create_resume,
            FacadeStep.html_to_pdf, FacadeStep.driver_quit]
          = [FacadeStep.get_style_path, step, FacadeStep.html_to_pdf,
             FacadeStep.driver_quit]) :=
  ⟨(c10_style_check_and_driver_quit envFacadeOk false none).1,
   (c10_style_check_and_driver_quit envFacadeOk false none).2 "modern" "PDFBYTES"
     ⟨some "modern", true⟩
     [.get_style_path, .create_resume, .html_to_pdf, .driver_quit] rfl⟩
